import Mathlib

/-!
Verification of the request-collection resolution and ordering core
(`yaak-models` queries for HTTP-style and RPC-style requests).

Shallow embedding conventions:
* Rust `f64` sort priorities are modelled by `F`: either a finite
  rational number or `nan`.  `F.add` and `F.div2` are exact where `f64`
  rounds (and can overflow), so arithmetic facts are only ever stated as
  computational identities — which operands feed which expression — never
  as precision or strict-order guarantees, which rounding can defeat.
  `F.pcmp` mirrors `f64::partial_cmp` (returns `none` iff an operand is
  `nan`).
* The repository (`DbContext`) is modelled as an explicit in-memory store
  `Db` threaded through each operation; fallible repository primitives
  return `Except DbError`.
* Rust's stable `sort_by` is modelled by the stable insertion sort
  `sortByCmp` (for a non-total comparator, Rust leaves the order
  unspecified; the model picks the stable-insertion refinement).
* `serde_json::Value` maps are modelled as association lists of strings:
  only their identity matters to the claims.
-/

/-- Model of an `f64` value: `nan` or an exact finite rational. -/
inductive F where
  | nan : F
  | fin : ℚ → F
deriving DecidableEq, Repr, Inhabited

namespace F

/-- Mirrors `f64::partial_cmp`: `none` iff either operand is NaN. -/
def pcmp : F → F → Option Ordering
  | fin a, fin b => some (if a < b then .lt else if b < a then .gt else .eq)
  | _, _ => none

/-- Addition; NaN is absorbing, as for `f64`.  Exact where `f64 +` rounds
to nearest and can overflow: theorems use this operation only inside
computational identities (the same expression on both sides), never to
derive precision or strict-order facts. -/
def add : F → F → F
  | fin a, fin b => fin (a + b)
  | _, _ => nan

/-- Division by 2 (`/ 2.0` in the source); NaN divides to NaN.  Exact
where `f64` division rounds: in real `f64`, the midpoint of two adjacent
floats rounds to an endpoint, so no theorem here asserts strictness of the
computed midpoint. -/
def div2 : F → F
  | fin a => fin (a / 2)
  | nan => nan

/-- Strict `<`, as for `f64`: any comparison involving NaN is false. -/
def lt : F → F → Bool
  | fin a, fin b => decide (a < b)
  | _, _ => false

end F

/-- First index whose element satisfies `p`; mirrors `Iterator::position`. -/
def position (p : α → Bool) : List α → Option Nat
  | [] => none
  | a :: as => if p a then some 0 else (position p as).map (· + 1)

/-- Stable insertion of `a` into `l`: `a` goes before the first element it
does not compare greater than, hence after all elements equal to it. -/
def insertCmp (cmp : α → α → Ordering) (a : α) : List α → List α
  | [] => [a]
  | b :: bs => if cmp a b == Ordering.gt then b :: insertCmp cmp a bs else a :: b :: bs

/-- Stable sort by a comparator; models Rust's stable `Vec::sort_by`. -/
def sortByCmp (cmp : α → α → Ordering) : List α → List α
  | [] => []
  | a :: as => insertCmp cmp a (sortByCmp cmp as)

/-- Header-like entry (key, value, enabled flag), per the spec data model. -/
structure HttpRequestHeader where
  name : String
  value : String
  enabled : Bool
deriving DecidableEq, Repr, Inhabited

/-- HTTP-style request, restricted to the fields this core reads. -/
structure HttpRequest where
  id : String
  workspace_id : String
  folder_id : Option String
  sort_priority : F
  authentication_type : Option String
  authentication : List (String × String)
  headers : List HttpRequestHeader
deriving DecidableEq, Repr, Inhabited

/-- RPC-style request, structurally identical but with `metadata`. -/
structure GrpcRequest where
  id : String
  workspace_id : String
  folder_id : Option String
  sort_priority : F
  authentication_type : Option String
  authentication : List (String × String)
  metadata : List HttpRequestHeader
deriving DecidableEq, Repr, Inhabited

/-- Folder: optional parent folder, forming an n-ary tree under a workspace. -/
structure Folder where
  id : String
  workspace_id : String
  folder_id : Option String
deriving DecidableEq, Repr, Inhabited

/-- Workspace: root of the containment tree. -/
structure Workspace where
  id : String
deriving DecidableEq, Repr, Inhabited

/-- Dependent child record of an HTTP request. -/
structure HttpResponse where
  id : String
  request_id : String
deriving DecidableEq, Repr, Inhabited

/-- Dependent child record of an RPC request. -/
structure GrpcConnection where
  id : String
  request_id : String
deriving DecidableEq, Repr, Inhabited

/-- Repository error taxonomy (spec section 7). -/
inductive DbError where
  | notFound : DbError
  | ioFailure : DbError
deriving DecidableEq, Repr, Inhabited

/-- Effective auth triple: `(authentication_type, authentication map, owner id)`. -/
abbrev AuthResult := Option String × List (String × String) × String

/-- Modelled from the spec: the opaque keyed repository (section 4.1) as an
in-memory store; `nextId` feeds identity assignment on insert-upsert. -/
structure Db where
  workspaces : List Workspace
  folders : List Folder
  httpRequests : List HttpRequest
  grpcRequests : List GrpcRequest
  httpResponses : List HttpResponse
  grpcConnections : List GrpcConnection
  nextId : Nat
deriving DecidableEq, Repr, Inhabited

/-- Modelled from the spec: `find_one` by id (section 4.1), backing
`get_http_request`. -/
def get_http_request (db : Db) (id : String) : Except DbError HttpRequest :=
  match db.httpRequests.find? (fun r => r.id == id) with
  | some r => .ok r
  | none => .error .notFound

/-- `list_http_requests`: `find_many` filtered by workspace; order is the
store's order (unspecified by the repository contract). -/
def list_http_requests (db : Db) (workspace_id : String) : List HttpRequest :=
  db.httpRequests.filter (fun r => r.workspace_id == workspace_id)

/-- Modelled from the spec: identity assigned by the repository on insert. -/
def freshId (db : Db) : String := "generated_" ++ toString db.nextId

/-- Modelled from the spec: `upsert` (section 4.1) — assigns identity if the
id is the empty sentinel, otherwise replaces the record with that id. -/
def upsertHttp (db : Db) (r : HttpRequest) : HttpRequest × Db :=
  if r.id == "" then
    let r2 := { r with id := freshId db }
    (r2, { db with httpRequests := db.httpRequests ++ [r2], nextId := db.nextId + 1 })
  else if db.httpRequests.any (fun s => s.id == r.id) then
    (r, { db with httpRequests := db.httpRequests.map (fun s => if s.id == r.id then r else s) })
  else
    (r, { db with httpRequests := db.httpRequests ++ [r] })

/-- Modelled from the spec: repository `delete` (section 4.1). -/
def deleteHttpRecord (db : Db) (m : HttpRequest) : Except DbError (HttpRequest × Db) :=
  if db.httpRequests.any (fun s => s.id == m.id) then
    .ok (m, { db with httpRequests := db.httpRequests.filter (fun s => !(s.id == m.id)) })
  else
    .error .notFound

/-- Child-record lookup for HTTP responses of a request. -/
def list_http_responses_for_request (db : Db) (request_id : String) : List HttpResponse :=
  db.httpResponses.filter (fun c => c.request_id == request_id)

/-- Modelled from the spec: cascading-delete helper removing every dependent
HTTP response of a request (section 3 lifecycle). -/
def delete_all_http_responses_for_request (db : Db) (request_id : String) : Db :=
  { db with httpResponses := db.httpResponses.filter (fun c => !(c.request_id == request_id)) }

/-- `delete_http_request` (lines 17-24), parameterized over the fallible
cascading-delete collaborator to mirror the `?`-propagation in the source:
children first, then the request record. -/
def delete_http_requestP (delChildren : String → Db → Except DbError Db)
    (db : Db) (m : HttpRequest) : Except DbError (HttpRequest × Db) := do
  let db2 ← delChildren m.id db
  deleteHttpRecord db2 m

/-- `delete_http_request` with the concrete cascading delete. -/
def delete_http_request (db : Db) (m : HttpRequest) : Except DbError (HttpRequest × Db) :=
  delete_http_requestP (fun rid d => .ok (delete_all_http_responses_for_request d rid)) db m

/-- Comparator of `duplicate_http_request`:
`a.sort_priority.partial_cmp(&b.sort_priority).unwrap_or(Equal)`. -/
def cmpHttpPriority (a b : HttpRequest) : Ordering :=
  (a.sort_priority.pcmp b.sort_priority).getD Ordering.eq

/-- Siblings of `r` among `reqs`: restricted to the same `folder_id`, stably
sorted ascending by `sort_priority` (lines 44-49). -/
def sortedSiblingsHttp (reqs : List HttpRequest) (r : HttpRequest) : List HttpRequest :=
  sortByCmp cmpHttpPriority (reqs.filter (fun s => s.folder_id == r.folder_id))

/-- The new-priority computation of `duplicate_http_request` (lines 51-64). -/
def nextPriorityHttp (reqs : List HttpRequest) (r : HttpRequest) : F :=
  let siblings := sortedSiblingsHttp reqs r
  match position (fun s => s.id == r.id) siblings with
  | some idx =>
    if idx + 1 < siblings.length then
      F.div2 (F.add r.sort_priority (siblings.getD (idx + 1) default).sort_priority)
    else
      F.add r.sort_priority (F.fin 1000)
  | none => F.add r.sort_priority (F.fin (1 / 1000))

/-- `duplicate_http_request` (lines 35-68) over the concrete store. -/
def duplicate_http_request (db : Db) (r : HttpRequest) : HttpRequest × Db :=
  upsertHttp db
    { r with id := "", sort_priority := nextPriorityHttp (list_http_requests db r.workspace_id) r }

/-- `duplicate_http_request` over abstract fallible repository primitives,
mirroring the `Result` plumbing: the only `?` operators are on the sibling
listing and the final upsert. -/
def duplicate_http_requestE (listReqs : String → Except DbError (List HttpRequest))
    (upsertReq : HttpRequest → Except DbError HttpRequest)
    (r : HttpRequest) : Except DbError HttpRequest := do
  let reqs ← listReqs r.workspace_id
  upsertReq { r with id := "", sort_priority := nextPriorityHttp reqs r }

/-- `resolve_auth_for_http_request` (lines 78-93), over the external
collaborator contracts (spec sections 4.1 and 4.3). -/
def resolve_auth_for_http_request
    (get_folder : String → Except DbError Folder)
    (get_workspace : String → Except DbError Workspace)
    (resolve_auth_for_folder : Folder → Except DbError AuthResult)
    (resolve_auth_for_workspace : Workspace → AuthResult)
    (r : HttpRequest) : Except DbError AuthResult :=
  match r.authentication_type with
  | some t => .ok (some t, r.authentication, r.id)
  | none =>
    match r.folder_id with
    | some folder_id => do
      let folder ← get_folder folder_id
      resolve_auth_for_folder folder
    | none => do
      let workspace ← get_workspace r.workspace_id
      .ok (resolve_auth_for_workspace workspace)

/-- `resolve_headers_for_http_request` (lines 95-115), over the external
collaborator contracts. -/
def resolve_headers_for_http_request
    (get_folder : String → Except DbError Folder)
    (get_workspace : String → Except DbError Workspace)
    (resolve_headers_for_folder : Folder → Except DbError (List HttpRequestHeader))
    (resolve_headers_for_workspace : Workspace → List HttpRequestHeader)
    (r : HttpRequest) : Except DbError (List HttpRequestHeader) := do
  let ancestor ←
    match r.folder_id with
    | some folder_id => do
      let parent_folder ← get_folder folder_id
      resolve_headers_for_folder parent_folder
    | none => do
      let workspace ← get_workspace r.workspace_id
      Except.ok (resolve_headers_for_workspace workspace)
  Except.ok (ancestor ++ r.headers)

/-- Immediate child folders of a folder (`find_many Folder FolderId`). -/
def childFolders (db : Db) (folder_id : String) : List Folder :=
  db.folders.filter (fun f => f.folder_id == some folder_id)

/-- Direct requests of a folder (`find_many HttpRequest FolderId`). -/
def requestsInFolder (db : Db) (folder_id : String) : List HttpRequest :=
  db.httpRequests.filter (fun r => r.folder_id == some folder_id)

/-- `list_http_requests_for_folder_recursive` (lines 117-129); `fuel` bounds
the recursion depth, which the source leaves to the acyclicity invariant. -/
def list_http_requests_for_folder_recursive (db : Db) : Nat → String → List HttpRequest
  | 0, _ => []
  | fuel + 1, folder_id =>
    ((childFolders db folder_id).map
      (fun f => list_http_requests_for_folder_recursive db fuel f.id)).flatten
    ++ requestsInFolder db folder_id

/-- Request `r` is transitively contained in the folder `folder_id`. -/
inductive InFolderTree (db : Db) : String → HttpRequest → Prop where
  | direct (folder_id : String) (r : HttpRequest) :
      r ∈ db.httpRequests → r.folder_id = some folder_id → InFolderTree db folder_id r
  | child (folder_id : String) (f : Folder) (r : HttpRequest) :
      f ∈ db.folders → f.folder_id = some folder_id →
      InFolderTree db f.id r → InFolderTree db folder_id r

/-- Modelled from the spec: `find_one` by id, backing `get_grpc_request`. -/
def get_grpc_request (db : Db) (id : String) : Except DbError GrpcRequest :=
  match db.grpcRequests.find? (fun r => r.id == id) with
  | some r => .ok r
  | none => .error .notFound

/-- `list_grpc_requests`: `find_many` filtered by workspace. -/
def list_grpc_requests (db : Db) (workspace_id : String) : List GrpcRequest :=
  db.grpcRequests.filter (fun r => r.workspace_id == workspace_id)

/-- Modelled from the spec: `upsert` for RPC-style requests. -/
def upsertGrpc (db : Db) (r : GrpcRequest) : GrpcRequest × Db :=
  if r.id == "" then
    let r2 := { r with id := freshId db }
    (r2, { db with grpcRequests := db.grpcRequests ++ [r2], nextId := db.nextId + 1 })
  else if db.grpcRequests.any (fun s => s.id == r.id) then
    (r, { db with grpcRequests := db.grpcRequests.map (fun s => if s.id == r.id then r else s) })
  else
    (r, { db with grpcRequests := db.grpcRequests ++ [r] })

/-- Modelled from the spec: repository `delete` for RPC-style requests. -/
def deleteGrpcRecord (db : Db) (m : GrpcRequest) : Except DbError (GrpcRequest × Db) :=
  if db.grpcRequests.any (fun s => s.id == m.id) then
    .ok (m, { db with grpcRequests := db.grpcRequests.filter (fun s => !(s.id == m.id)) })
  else
    .error .notFound

/-- Child-record lookup for RPC connections of a request. -/
def list_grpc_connections_for_request (db : Db) (request_id : String) : List GrpcConnection :=
  db.grpcConnections.filter (fun c => c.request_id == request_id)

/-- Modelled from the spec: cascading-delete helper removing every dependent
RPC connection of a request. -/
def delete_all_grpc_connections_for_request (db : Db) (request_id : String) : Db :=
  { db with grpcConnections := db.grpcConnections.filter (fun c => !(c.request_id == request_id)) }

/-- `delete_grpc_request` (lines 17-24), parameterized over the fallible
cascading-delete collaborator. -/
def delete_grpc_requestP (delChildren : String → Db → Except DbError Db)
    (db : Db) (m : GrpcRequest) : Except DbError (GrpcRequest × Db) := do
  let db2 ← delChildren m.id db
  deleteGrpcRecord db2 m

/-- `delete_grpc_request` with the concrete cascading delete. -/
def delete_grpc_request (db : Db) (m : GrpcRequest) : Except DbError (GrpcRequest × Db) :=
  delete_grpc_requestP (fun rid d => .ok (delete_all_grpc_connections_for_request d rid)) db m

/-- Comparator of `duplicate_grpc_request` (lines 46-49). -/
def cmpGrpcPriority (a b : GrpcRequest) : Ordering :=
  (a.sort_priority.pcmp b.sort_priority).getD Ordering.eq

/-- Siblings of `r` among `reqs`, stably sorted ascending (lines 44-49). -/
def sortedSiblingsGrpc (reqs : List GrpcRequest) (r : GrpcRequest) : List GrpcRequest :=
  sortByCmp cmpGrpcPriority (reqs.filter (fun s => s.folder_id == r.folder_id))

/-- The new-priority computation of `duplicate_grpc_request` (lines 51-64). -/
def nextPriorityGrpc (reqs : List GrpcRequest) (r : GrpcRequest) : F :=
  let siblings := sortedSiblingsGrpc reqs r
  match position (fun s => s.id == r.id) siblings with
  | some idx =>
    if idx + 1 < siblings.length then
      F.div2 (F.add r.sort_priority (siblings.getD (idx + 1) default).sort_priority)
    else
      F.add r.sort_priority (F.fin 1000)
  | none => F.add r.sort_priority (F.fin (1 / 1000))

/-- `duplicate_grpc_request` (lines 35-68) over the concrete store. -/
def duplicate_grpc_request (db : Db) (r : GrpcRequest) : GrpcRequest × Db :=
  upsertGrpc db
    { r with id := "", sort_priority := nextPriorityGrpc (list_grpc_requests db r.workspace_id) r }

/-- `duplicate_grpc_request` over abstract fallible repository primitives. -/
def duplicate_grpc_requestE (listReqs : String → Except DbError (List GrpcRequest))
    (upsertReq : GrpcRequest → Except DbError GrpcRequest)
    (r : GrpcRequest) : Except DbError GrpcRequest := do
  let reqs ← listReqs r.workspace_id
  upsertReq { r with id := "", sort_priority := nextPriorityGrpc reqs r }

/-- `resolve_auth_for_grpc_request` (lines 78-93), over the external
collaborator contracts. -/
def resolve_auth_for_grpc_request
    (get_folder : String → Except DbError Folder)
    (get_workspace : String → Except DbError Workspace)
    (resolve_auth_for_folder : Folder → Except DbError AuthResult)
    (resolve_auth_for_workspace : Workspace → AuthResult)
    (r : GrpcRequest) : Except DbError AuthResult :=
  match r.authentication_type with
  | some t => .ok (some t, r.authentication, r.id)
  | none =>
    match r.folder_id with
    | some folder_id => do
      let folder ← get_folder folder_id
      resolve_auth_for_folder folder
    | none => do
      let workspace ← get_workspace r.workspace_id
      .ok (resolve_auth_for_workspace workspace)

/-- `resolve_metadata_for_grpc_request` (lines 95-115), over the external
collaborator contracts. -/
def resolve_metadata_for_grpc_request
    (get_folder : String → Except DbError Folder)
    (get_workspace : String → Except DbError Workspace)
    (resolve_headers_for_folder : Folder → Except DbError (List HttpRequestHeader))
    (resolve_headers_for_workspace : Workspace → List HttpRequestHeader)
    (r : GrpcRequest) : Except DbError (List HttpRequestHeader) := do
  let ancestor ←
    match r.folder_id with
    | some folder_id => do
      let parent_folder ← get_folder folder_id
      resolve_headers_for_folder parent_folder
    | none => do
      let workspace ← get_workspace r.workspace_id
      Except.ok (resolve_headers_for_workspace workspace)
  Except.ok (ancestor ++ r.metadata)

/-- The structural correspondence between the two request kinds: same id,
workspace, folder, priority and auth fields; `headers` becomes `metadata`. -/
def toGrpc (r : HttpRequest) : GrpcRequest :=
  { id := r.id
    workspace_id := r.workspace_id
    folder_id := r.folder_id
    sort_priority := r.sort_priority
    authentication_type := r.authentication_type
    authentication := r.authentication
    metadata := r.headers }

/-- Concrete request with a sibling of equal priority (tie witness). -/
def exReqA : HttpRequest :=
  { id := "a", workspace_id := "w", folder_id := none, sort_priority := F.fin 0,
    authentication_type := none, authentication := [], headers := [] }

/-- Second request of the tie pair. -/
def exReqB : HttpRequest :=
  { id := "b", workspace_id := "w", folder_id := none, sort_priority := F.fin 0,
    authentication_type := none, authentication := [], headers := [] }

/-- Store holding the tie pair. -/
def exDbTie : Db :=
  { workspaces := [{ id := "w" }], folders := [], httpRequests := [exReqA, exReqB],
    grpcRequests := [], httpResponses := [], grpcConnections := [], nextId := 0 }

/-- Concrete request with priority 0, sibling at 10. -/
def wReqA : HttpRequest :=
  { id := "a", workspace_id := "w", folder_id := none, sort_priority := F.fin 0,
    authentication_type := none, authentication := [], headers := [] }

/-- Concrete last sibling, priority 10. -/
def wReqB : HttpRequest :=
  { id := "b", workspace_id := "w", folder_id := none, sort_priority := F.fin 10,
    authentication_type := none, authentication := [], headers := [] }

/-- Store holding the gapped pair, with matching RPC-side copies. -/
def wDb : Db :=
  { workspaces := [{ id := "w" }], folders := [], httpRequests := [wReqA, wReqB],
    grpcRequests := [toGrpc wReqA, toGrpc wReqB], httpResponses := [],
    grpcConnections := [], nextId := 0 }

/-- Request whose id is the empty not-yet-persisted sentinel. -/
def wReqEmptyId : HttpRequest :=
  { id := "", workspace_id := "w", folder_id := none, sort_priority := F.fin 2,
    authentication_type := none, authentication := [], headers := [] }

/-- Concrete folder for resolver witnesses. -/
def exFolder : Folder := { id := "f1", workspace_id := "w", folder_id := none }

/-- Concrete workspace for resolver witnesses. -/
def exWorkspace : Workspace := { id := "w" }

/-- Concrete `get_folder` collaborator. -/
def exGetFolder : String → Except DbError Folder := fun _ => .ok exFolder

/-- Concrete `get_workspace` collaborator. -/
def exGetWorkspace : String → Except DbError Workspace := fun _ => .ok exWorkspace

/-- Concrete `resolve_auth_for_folder` collaborator. -/
def exAuthFolder : Folder → Except DbError AuthResult :=
  fun f => .ok (some "basic", [("user", "u")], f.id)

/-- Concrete `resolve_auth_for_workspace` collaborator. -/
def exAuthWorkspace : Workspace → AuthResult := fun w => (some "none", [], w.id)

/-- Concrete `resolve_headers_for_folder` collaborator. -/
def exHeadersFolder : Folder → Except DbError (List HttpRequestHeader) :=
  fun _ => .ok [{ name := "B", value := "b", enabled := true }]

/-- Concrete `resolve_headers_for_workspace` collaborator. -/
def exHeadersWorkspace : Workspace → List HttpRequestHeader :=
  fun _ => [{ name := "A", value := "a", enabled := true }]

/-- Request carrying its own `authentication_type`. -/
def reqOwnAuth : HttpRequest :=
  { id := "r1", workspace_id := "w", folder_id := some "f1", sort_priority := F.fin 0,
    authentication_type := some "bearer", authentication := [("token", "t")],
    headers := [{ name := "C", value := "c", enabled := true }] }

/-- Request inheriting auth from its folder. -/
def reqFolderAuth : HttpRequest :=
  { id := "r2", workspace_id := "w", folder_id := some "f1", sort_priority := F.fin 0,
    authentication_type := none, authentication := [],
    headers := [{ name := "C", value := "c", enabled := true }] }

/-- Request inheriting auth from the workspace (no folder). -/
def reqWorkspaceAuth : HttpRequest :=
  { id := "r3", workspace_id := "w", folder_id := none, sort_priority := F.fin 0,
    authentication_type := none, authentication := [],
    headers := [{ name := "C", value := "c", enabled := true }] }

/-- Folder tree store: folder g inside folder f; request r1 directly in f,
request r2 in g. -/
def dbTree : Db :=
  { workspaces := [{ id := "w" }]
    folders := [{ id := "g", workspace_id := "w", folder_id := some "f" }]
    httpRequests :=
      [{ id := "r1", workspace_id := "w", folder_id := some "f", sort_priority := F.fin 0,
         authentication_type := none, authentication := [], headers := [] },
       { id := "r2", workspace_id := "w", folder_id := some "g", sort_priority := F.fin 0,
         authentication_type := none, authentication := [], headers := [] }]
    grpcRequests := [], httpResponses := [], grpcConnections := [], nextId := 0 }

/-- Rank function witnessing acyclicity of `dbTree`. -/
def rankTree : String → Nat := fun s => if s = "g" then 0 else 1

/-- Request to be deleted in the cascade witness. -/
def reqDel : HttpRequest :=
  { id := "r1", workspace_id := "w", folder_id := none, sort_priority := F.fin 0,
    authentication_type := none, authentication := [], headers := [] }

/-- RPC request to be deleted in the cascade witness. -/
def greqDel : GrpcRequest := toGrpc reqDel

/-- Store holding `reqDel`, a dependent response, and RPC twins. -/
def dbDel : Db :=
  { workspaces := [{ id := "w" }], folders := [], httpRequests := [reqDel],
    grpcRequests := [greqDel], httpResponses := [{ id := "resp1", request_id := "r1" }],
    grpcConnections := [{ id := "conn1", request_id := "r1" }], nextId := 0 }

/-- Expected store after cascading HTTP delete. -/
def dbDelAfterHttp : Db :=
  { workspaces := [{ id := "w" }], folders := [], httpRequests := [],
    grpcRequests := [greqDel], httpResponses := [],
    grpcConnections := [{ id := "conn1", request_id := "r1" }], nextId := 0 }

/-- Expected store after cascading RPC delete. -/
def dbDelAfterGrpc : Db :=
  { workspaces := [{ id := "w" }], folders := [], httpRequests := [reqDel],
    grpcRequests := [], httpResponses := [{ id := "resp1", request_id := "r1" }],
    grpcConnections := [], nextId := 0 }

/-- Request whose priority is NaN, for the totality witness. -/
def reqNaN1 : HttpRequest :=
  { id := "n1", workspace_id := "w", folder_id := none, sort_priority := F.nan,
    authentication_type := none, authentication := [], headers := [] }

/-- Second NaN-priority request. -/
def reqNaN2 : HttpRequest :=
  { id := "n2", workspace_id := "w", folder_id := none, sort_priority := F.nan,
    authentication_type := none, authentication := [], headers := [] }

/-- Listing collaborator returning the NaN pair. -/
def exListNaN : String → Except DbError (List HttpRequest) :=
  fun _ => .ok [reqNaN1, reqNaN2]

/-- Upsert collaborator that always succeeds. -/
def exUpsertOk : HttpRequest → Except DbError HttpRequest := fun q => .ok q

/-- Listing collaborator for the RPC totality witness. -/
def exListNaNG : String → Except DbError (List GrpcRequest) :=
  fun _ => .ok [toGrpc reqNaN1, toGrpc reqNaN2]

/-- RPC upsert collaborator that always succeeds. -/
def exUpsertOkG : GrpcRequest → Except DbError GrpcRequest := fun q => .ok q

/-- Child-deleting collaborator that always fails, for the short-circuit
witness. -/
def exDelChildrenFail : String → Db → Except DbError Db := fun _ _ => .error .ioFailure

/-- The sorted sibling list computed inside `duplicate_http_request`
(lines 44-49): same workspace, same folder, stably sorted by priority. -/
def siblingsHttp (db : Db) (r : HttpRequest) : List HttpRequest :=
  sortedSiblingsHttp (list_http_requests db r.workspace_id) r

/-- The sorted sibling list computed inside `duplicate_grpc_request`. -/
def siblingsGrpc (db : Db) (r : GrpcRequest) : List GrpcRequest :=
  sortedSiblingsGrpc (list_grpc_requests db r.workspace_id) r

theorem position_map (p : β → Bool) (f : α → β) (l : List α) :
    position p (l.map f) = position (fun a => p (f a)) l := by
  induction l with
  | nil => rfl
  | cons a as ih => simp only [List.map_cons, position, ih]

theorem position_eq_none (p : α → Bool) (l : List α) :
    position p l = none ↔ ∀ a ∈ l, p a = false := by
  induction l with
  | nil => simp [position]
  | cons a as ih =>
    by_cases h : p a <;> simp [position, h, ih]

theorem mem_insertCmp (cmp : α → α → Ordering) (a x : α) (l : List α) :
    x ∈ insertCmp cmp a l ↔ x = a ∨ x ∈ l := by
  induction l with
  | nil => simp [insertCmp]
  | cons b bs ih =>
    by_cases h : cmp a b == Ordering.gt <;> simp [insertCmp, h, ih] <;> tauto

theorem mem_sortByCmp (cmp : α → α → Ordering) (x : α) (l : List α) :
    x ∈ sortByCmp cmp l ↔ x ∈ l := by
  induction l with
  | nil => exact Iff.rfl
  | cons a as ih => simp [sortByCmp, mem_insertCmp, ih]

theorem insertCmp_map (f : α → β) (cmp : α → α → Ordering) (cmp2 : β → β → Ordering)
    (hc : ∀ a b, cmp2 (f a) (f b) = cmp a b) (a : α) (l : List α) :
    insertCmp cmp2 (f a) (l.map f) = (insertCmp cmp a l).map f := by
  induction l with
  | nil => rfl
  | cons b bs ih =>
    simp only [List.map_cons, insertCmp, hc, ih]
    by_cases h : cmp a b == Ordering.gt <;> simp [h]

theorem sortByCmp_map (f : α → β) (cmp : α → α → Ordering) (cmp2 : β → β → Ordering)
    (hc : ∀ a b, cmp2 (f a) (f b) = cmp a b) (l : List α) :
    sortByCmp cmp2 (l.map f) = (sortByCmp cmp l).map f := by
  induction l with
  | nil => rfl
  | cons a as ih => simp only [List.map_cons, sortByCmp, ih, insertCmp_map f cmp cmp2 hc]

theorem filter_not_filter (p : α → Bool) (l : List α) :
    (l.filter (fun a => !(p a))).filter p = [] := by
  induction l with
  | nil => rfl
  | cons a as ih => by_cases h : p a <;> simp [h, ih]

theorem find?_filter_not (p : α → Bool) (l : List α) :
    (l.filter (fun a => !(p a))).find? p = none := by
  induction l with
  | nil => rfl
  | cons a as ih => by_cases h : p a <;> simp [h, ih, List.find?]

theorem mem_childFolders (db : Db) (fid : String) (f : Folder) :
    f ∈ childFolders db fid ↔ f ∈ db.folders ∧ f.folder_id = some fid := by
  simp [childFolders]

theorem mem_requestsInFolder (db : Db) (fid : String) (r : HttpRequest) :
    r ∈ requestsInFolder db fid ↔ r ∈ db.httpRequests ∧ r.folder_id = some fid := by
  simp [requestsInFolder]

theorem listRec_sound (db : Db) :
    ∀ (fuel : Nat) (fid : String) (r : HttpRequest),
      r ∈ list_http_requests_for_folder_recursive db fuel fid → InFolderTree db fid r := by
  intro fuel
  induction fuel with
  | zero =>
    intro fid r h
    simp [list_http_requests_for_folder_recursive] at h
  | succ n ih =>
    intro fid r h
    simp only [list_http_requests_for_folder_recursive, List.mem_append] at h
    rcases h with h | h
    · rw [List.mem_flatten] at h
      obtain ⟨l, hl, hrl⟩ := h
      rw [List.mem_map] at hl
      obtain ⟨f, hf, rfl⟩ := hl
      rw [mem_childFolders] at hf
      exact InFolderTree.child fid f r hf.1 hf.2 (ih f.id r hrl)
    · rw [mem_requestsInFolder] at h
      exact InFolderTree.direct fid r h.1 h.2

theorem listRec_complete (db : Db) (rk : String → Nat)
    (hac : ∀ f ∈ db.folders, (f.folder_id).all (fun pid => decide (rk f.id < rk pid)) = true) :
    ∀ (fid : String) (r : HttpRequest), InFolderTree db fid r →
      ∀ fuel, rk fid < fuel → r ∈ list_http_requests_for_folder_recursive db fuel fid := by
  intro fid r h
  induction h with
  | direct fid2 r2 hmem hfid =>
    intro fuel hfuel
    cases fuel with
    | zero => omega
    | succ n =>
      simp only [list_http_requests_for_folder_recursive, List.mem_append]
      right
      rw [mem_requestsInFolder]
      exact ⟨hmem, hfid⟩
  | child fid2 f r2 hf hfid hsub ih =>
    intro fuel hfuel
    cases fuel with
    | zero => omega
    | succ n =>
      have hrank : rk f.id < rk fid2 := by
        have h2 := hac f hf
        rw [hfid] at h2
        simpa [Option.all] using h2
      simp only [list_http_requests_for_folder_recursive, List.mem_append]
      left
      rw [List.mem_flatten]
      refine ⟨_, List.mem_map_of_mem _ ((mem_childFolders db fid2 f).2 ⟨hf, hfid⟩), ?_⟩
      exact ih n (by omega)

theorem listRec_fuel (db : Db) (rk : String → Nat)
    (hac : ∀ f ∈ db.folders, (f.folder_id).all (fun pid => decide (rk f.id < rk pid)) = true) :
    ∀ (n m : Nat) (fid : String), rk fid < n → rk fid < m →
      list_http_requests_for_folder_recursive db n fid
        = list_http_requests_for_folder_recursive db m fid := by
  intro n
  induction n with
  | zero =>
    intro m fid h
    omega
  | succ k ih =>
    intro m fid hn hm
    cases m with
    | zero => omega
    | succ j =>
      simp only [list_http_requests_for_folder_recursive]
      congr 1
      congr 1
      apply List.map_congr_left
      intro f hf
      rw [mem_childFolders] at hf
      have hrank : rk f.id < rk fid := by
        have h2 := hac f hf.1
        rw [hf.2] at h2
        simpa [Option.all] using h2
      exact ih j f.id (by omega) (by omega)

theorem dup_http_priority (db : Db) (r : HttpRequest) :
    (duplicate_http_request db r).1.sort_priority
      = nextPriorityHttp (list_http_requests db r.workspace_id) r := by
  simp [duplicate_http_request, upsertHttp]

theorem dup_grpc_priority (db : Db) (r : GrpcRequest) :
    (duplicate_grpc_request db r).1.sort_priority
      = nextPriorityGrpc (list_grpc_requests db r.workspace_id) r := by
  simp [duplicate_grpc_request, upsertGrpc]

theorem list_grpc_map (db : Db) (hdb : db.grpcRequests = db.httpRequests.map toGrpc)
    (wid : String) : list_grpc_requests db wid = (list_http_requests db wid).map toGrpc := by
  rw [list_grpc_requests, list_http_requests, hdb, List.filter_map]
  rfl

theorem sortedSiblings_map (reqs : List HttpRequest) (r : HttpRequest) :
    sortedSiblingsGrpc (reqs.map toGrpc) (toGrpc r) = (sortedSiblingsHttp reqs r).map toGrpc := by
  rw [sortedSiblingsGrpc, sortedSiblingsHttp, List.filter_map,
    sortByCmp_map toGrpc cmpHttpPriority cmpGrpcPriority (fun a b => rfl)]
  rfl

theorem nextPriority_map (reqs : List HttpRequest) (r : HttpRequest) :
    nextPriorityGrpc (reqs.map toGrpc) (toGrpc r) = nextPriorityHttp reqs r := by
  simp only [nextPriorityGrpc, nextPriorityHttp, sortedSiblings_map, position_map]
  have hfun : (fun a : HttpRequest => (toGrpc a).id == (toGrpc r).id)
      = (fun s : HttpRequest => s.id == r.id) := rfl
  rw [hfun]
  cases hp : position (fun s : HttpRequest => s.id == r.id) (sortedSiblingsHttp reqs r) with
  | none => rfl
  | some idx =>
    dsimp only
    by_cases hlen : idx + 1 < (sortedSiblingsHttp reqs r).length
    · rw [if_pos (by simpa using hlen), if_pos hlen]
      have hlen2 : idx + 1 < ((sortedSiblingsHttp reqs r).map toGrpc).length := by
        simpa using hlen
      rw [List.getD_eq_getElem _ _ hlen2, List.getD_eq_getElem _ _ hlen, List.getElem_map]
      rfl
    · rw [if_neg (by simpa using hlen), if_neg hlen]
      rfl

/-- C2: for every request (HTTP or RPC) whose `authentication_type` is set
to a non-empty tag, auth resolution returns exactly the triple of the
request's own type, own authentication map and own id — for every choice of
ancestor collaborators, hence with no delegation to any ancestor. -/
theorem C2_resolve_auth_own
    (gf : String → Except DbError Folder) (gw : String → Except DbError Workspace)
    (raf : Folder → Except DbError AuthResult) (raw : Workspace → AuthResult)
    (r : HttpRequest) (g : GrpcRequest) (t u : String)
    (ht : r.authentication_type = some t) (htne : t ≠ "")
    (hu : g.authentication_type = some u) (hune : u ≠ "") :
    resolve_auth_for_http_request gf gw raf raw r = .ok (some t, r.authentication, r.id)
    ∧ resolve_auth_for_grpc_request gf gw raf raw g = .ok (some u, g.authentication, g.id) := by
  constructor
  · simp [resolve_auth_for_http_request, ht]
  · simp [resolve_auth_for_grpc_request, hu]

/-- Witness for C2 at a concrete bearer-auth request and its RPC copy. -/
theorem C2_resolve_auth_own_witness :
    resolve_auth_for_http_request exGetFolder exGetWorkspace exAuthFolder exAuthWorkspace
        reqOwnAuth = .ok (some "bearer", reqOwnAuth.authentication, reqOwnAuth.id)
    ∧ resolve_auth_for_grpc_request exGetFolder exGetWorkspace exAuthFolder exAuthWorkspace
        (toGrpc reqOwnAuth)
        = .ok (some "bearer", (toGrpc reqOwnAuth).authentication, (toGrpc reqOwnAuth).id) :=
  C2_resolve_auth_own exGetFolder exGetWorkspace exAuthFolder exAuthWorkspace
    reqOwnAuth (toGrpc reqOwnAuth) "bearer" "bearer" rfl (by decide) rfl (by decide)

/-- C3: for every request (HTTP or RPC) with `authentication_type = None`,
resolution returns exactly the parent folder's own resolution when
`folder_id` is set, and exactly the workspace's resolution otherwise. -/
theorem C3_resolve_auth_delegates
    (gf : String → Except DbError Folder) (gw : String → Except DbError Workspace)
    (raf : Folder → Except DbError AuthResult) (raw : Workspace → AuthResult) :
    (∀ r : HttpRequest, r.authentication_type = none →
      (∀ fid f, r.folder_id = some fid → gf fid = .ok f →
        resolve_auth_for_http_request gf gw raf raw r = raf f)
      ∧ (∀ w, r.folder_id = none → gw r.workspace_id = .ok w →
        resolve_auth_for_http_request gf gw raf raw r = .ok (raw w)))
    ∧ (∀ g : GrpcRequest, g.authentication_type = none →
      (∀ fid f, g.folder_id = some fid → gf fid = .ok f →
        resolve_auth_for_grpc_request gf gw raf raw g = raf f)
      ∧ (∀ w, g.folder_id = none → gw g.workspace_id = .ok w →
        resolve_auth_for_grpc_request gf gw raf raw g = .ok (raw w))) := by
  constructor
  · intro r hr
    constructor
    · intro fid f hfid hgf
      simp [resolve_auth_for_http_request, hr, hfid, hgf]
      rfl
    · intro w hfid hgw
      simp [resolve_auth_for_http_request, hr, hfid, hgw]
      rfl
  · intro g hg
    constructor
    · intro fid f hfid hgf
      simp [resolve_auth_for_grpc_request, hg, hfid, hgf]
      rfl
    · intro w hfid hgw
      simp [resolve_auth_for_grpc_request, hg, hfid, hgw]
      rfl

/-- Witness for C3: folder-auth and workspace-auth cases, both kinds. -/
theorem C3_resolve_auth_delegates_witness :
    resolve_auth_for_http_request exGetFolder exGetWorkspace exAuthFolder exAuthWorkspace
        reqFolderAuth = exAuthFolder exFolder
    ∧ resolve_auth_for_http_request exGetFolder exGetWorkspace exAuthFolder exAuthWorkspace
        reqWorkspaceAuth = .ok (exAuthWorkspace exWorkspace)
    ∧ resolve_auth_for_grpc_request exGetFolder exGetWorkspace exAuthFolder exAuthWorkspace
        (toGrpc reqFolderAuth) = exAuthFolder exFolder
    ∧ resolve_auth_for_grpc_request exGetFolder exGetWorkspace exAuthFolder exAuthWorkspace
        (toGrpc reqWorkspaceAuth) = .ok (exAuthWorkspace exWorkspace) :=
  ⟨((C3_resolve_auth_delegates exGetFolder exGetWorkspace exAuthFolder exAuthWorkspace).1
      reqFolderAuth rfl).1 "f1" exFolder rfl rfl,
   ((C3_resolve_auth_delegates exGetFolder exGetWorkspace exAuthFolder exAuthWorkspace).1
      reqWorkspaceAuth rfl).2 exWorkspace rfl rfl,
   ((C3_resolve_auth_delegates exGetFolder exGetWorkspace exAuthFolder exAuthWorkspace).2
      (toGrpc reqFolderAuth) rfl).1 "f1" exFolder rfl rfl,
   ((C3_resolve_auth_delegates exGetFolder exGetWorkspace exAuthFolder exAuthWorkspace).2
      (toGrpc reqWorkspaceAuth) rfl).2 exWorkspace rfl rfl⟩

/-- C4: header/metadata resolution returns the resolved ancestor sequence
(folder's resolved headers when owned by a folder, else the workspace's
base headers) with the request's own entries appended at the end, in
order — nothing dropped, deduplicated or reordered (HTTP and RPC). -/
theorem C4_resolve_headers_concat
    (gf : String → Except DbError Folder) (gw : String → Except DbError Workspace)
    (rhf : Folder → Except DbError (List HttpRequestHeader))
    (rhw : Workspace → List HttpRequestHeader) :
    (∀ r : HttpRequest,
      (∀ fid f hs, r.folder_id = some fid → gf fid = .ok f → rhf f = .ok hs →
        resolve_headers_for_http_request gf gw rhf rhw r = .ok (hs ++ r.headers))
      ∧ (∀ w, r.folder_id = none → gw r.workspace_id = .ok w →
        resolve_headers_for_http_request gf gw rhf rhw r = .ok (rhw w ++ r.headers)))
    ∧ (∀ g : GrpcRequest,
      (∀ fid f hs, g.folder_id = some fid → gf fid = .ok f → rhf f = .ok hs →
        resolve_metadata_for_grpc_request gf gw rhf rhw g = .ok (hs ++ g.metadata))
      ∧ (∀ w, g.folder_id = none → gw g.workspace_id = .ok w →
        resolve_metadata_for_grpc_request gf gw rhf rhw g = .ok (rhw w ++ g.metadata))) := by
  constructor
  · intro r
    constructor
    · intro fid f hs hfid hgf hrhf
      simp [resolve_headers_for_http_request, hfid, hgf, hrhf]
      show (rhf f >>= fun y => Except.ok (y ++ r.headers)) = Except.ok (hs ++ r.headers)
      rw [hrhf]
      rfl
    · intro w hfid hgw
      simp [resolve_headers_for_http_request, hfid, hgw]
      rfl
  · intro g
    constructor
    · intro fid f hs hfid hgf hrhf
      simp [resolve_metadata_for_grpc_request, hfid, hgf, hrhf]
      show (rhf f >>= fun y => Except.ok (y ++ g.metadata)) = Except.ok (hs ++ g.metadata)
      rw [hrhf]
      rfl
    · intro w hfid hgw
      simp [resolve_metadata_for_grpc_request, hfid, hgw]
      rfl

/-- Witness for C4: workspace headers [A], folder headers [B], request
headers [C] resolve to [B, C] under a folder and [A, C] under the
workspace, for both kinds. -/
theorem C4_resolve_headers_concat_witness :
    resolve_headers_for_http_request exGetFolder exGetWorkspace exHeadersFolder
        exHeadersWorkspace reqFolderAuth
      = .ok ([{ name := "B", value := "b", enabled := true }] ++ reqFolderAuth.headers)
    ∧ resolve_headers_for_http_request exGetFolder exGetWorkspace exHeadersFolder
        exHeadersWorkspace reqWorkspaceAuth
      = .ok (exHeadersWorkspace exWorkspace ++ reqWorkspaceAuth.headers)
    ∧ resolve_metadata_for_grpc_request exGetFolder exGetWorkspace exHeadersFolder
        exHeadersWorkspace (toGrpc reqFolderAuth)
      = .ok ([{ name := "B", value := "b", enabled := true }] ++ (toGrpc reqFolderAuth).metadata)
    ∧ resolve_metadata_for_grpc_request exGetFolder exGetWorkspace exHeadersFolder
        exHeadersWorkspace (toGrpc reqWorkspaceAuth)
      = .ok (exHeadersWorkspace exWorkspace ++ (toGrpc reqWorkspaceAuth).metadata) :=
  ⟨((C4_resolve_headers_concat exGetFolder exGetWorkspace exHeadersFolder exHeadersWorkspace).1
      reqFolderAuth).1 "f1" exFolder _ rfl rfl rfl,
   ((C4_resolve_headers_concat exGetFolder exGetWorkspace exHeadersFolder exHeadersWorkspace).1
      reqWorkspaceAuth).2 exWorkspace rfl rfl,
   ((C4_resolve_headers_concat exGetFolder exGetWorkspace exHeadersFolder exHeadersWorkspace).2
      (toGrpc reqFolderAuth)).1 "f1" exFolder _ rfl rfl rfl,
   ((C4_resolve_headers_concat exGetFolder exGetWorkspace exHeadersFolder exHeadersWorkspace).2
      (toGrpc reqWorkspaceAuth)).2 exWorkspace rfl rfl⟩

/-- C1 (amended): for every request located among its sorted siblings at
index `idx`: if a following sibling exists, the copy's `sort_priority` is
the value computed by the floating-point midpoint expression
`(source.sort_priority + p_next) / 2.0` over the source's priority and the
next sibling's; if the source is last, the copy's `sort_priority` is
`source.sort_priority + 1000.0` (HTTP and RPC).  These are computational
identities, independent of how the arithmetic rounds.  The original
strictly-between clause is dropped entirely: it fails for tied priorities
(see the counterexample), and under real `f64` rounding even
`source < p_next` does not guarantee strictness, since the midpoint of two
adjacent floats rounds to an endpoint. -/
theorem C1_duplicate_midpoint :
    (∀ (db : Db) (r : HttpRequest) (idx : Nat),
      position (fun s => s.id == r.id) (siblingsHttp db r) = some idx →
      (idx + 1 < (siblingsHttp db r).length →
        (duplicate_http_request db r).1.sort_priority
          = F.div2 (F.add r.sort_priority
              ((siblingsHttp db r).getD (idx + 1) default).sort_priority))
      ∧ (¬ idx + 1 < (siblingsHttp db r).length →
          (duplicate_http_request db r).1.sort_priority
            = F.add r.sort_priority (F.fin 1000)))
    ∧ (∀ (db : Db) (g : GrpcRequest) (idx : Nat),
      position (fun s => s.id == g.id) (siblingsGrpc db g) = some idx →
      (idx + 1 < (siblingsGrpc db g).length →
        (duplicate_grpc_request db g).1.sort_priority
          = F.div2 (F.add g.sort_priority
              ((siblingsGrpc db g).getD (idx + 1) default).sort_priority))
      ∧ (¬ idx + 1 < (siblingsGrpc db g).length →
          (duplicate_grpc_request db g).1.sort_priority
            = F.add g.sort_priority (F.fin 1000))) := by
  constructor
  · intro db r idx hidx
    simp only [siblingsHttp] at hidx ⊢
    constructor
    · intro h2
      rw [dup_http_priority db r]
      simp only [nextPriorityHttp]
      rw [hidx]
      dsimp only
      rw [if_pos h2]
    · intro h2
      rw [dup_http_priority db r]
      simp only [nextPriorityHttp]
      rw [hidx]
      dsimp only
      rw [if_neg h2]
  · intro db g idx hidx
    simp only [siblingsGrpc] at hidx ⊢
    constructor
    · intro h2
      rw [dup_grpc_priority db g]
      simp only [nextPriorityGrpc]
      rw [hidx]
      dsimp only
      rw [if_pos h2]
    · intro h2
      rw [dup_grpc_priority db g]
      simp only [nextPriorityGrpc]
      rw [hidx]
      dsimp only
      rw [if_neg h2]

/-- C1 counterexample: two tied siblings with priority 0; duplicating the
first yields midpoint 0, which is not strictly between source and next:
the strictly-between clause of the claim as stated is false.  The tie
instance involves no rounding — 0.0 is exact in `f64` — so it refutes the
claim for the real program as well. -/
theorem C1_counterexample :
    position (fun s => s.id == exReqA.id) (siblingsHttp exDbTie exReqA) = some 0
    ∧ 0 + 1 < (siblingsHttp exDbTie exReqA).length
    ∧ ((siblingsHttp exDbTie exReqA).getD (0 + 1) default).sort_priority = F.fin 0
    ∧ (duplicate_http_request exDbTie exReqA).1.sort_priority
        = F.div2 (F.add exReqA.sort_priority (F.fin 0))
    ∧ F.lt exReqA.sort_priority (duplicate_http_request exDbTie exReqA).1.sort_priority
        = false := by
  refine ⟨by decide, by decide, by decide, rfl, ?_⟩
  show F.lt (F.fin 0) (F.fin ((0 + 0) / 2)) = false
  simp only [F.lt]
  rw [decide_eq_false_iff_not]
  norm_num

/-- Witness for C1 at a gapped pair (priorities 0 and 10): duplicating the
first computes the midpoint expression over priority 10; duplicating the
last adds 1000; same shape for the RPC copies. -/
theorem C1_duplicate_midpoint_witness :
    ((duplicate_http_request wDb wReqA).1.sort_priority
        = F.div2 (F.add wReqA.sort_priority
            ((siblingsHttp wDb wReqA).getD (0 + 1) default).sort_priority))
    ∧ (duplicate_http_request wDb wReqB).1.sort_priority
        = F.add wReqB.sort_priority (F.fin 1000)
    ∧ (duplicate_grpc_request wDb (toGrpc wReqA)).1.sort_priority
        = F.div2 (F.add (toGrpc wReqA).sort_priority
            ((siblingsGrpc wDb (toGrpc wReqA)).getD (0 + 1) default).sort_priority)
    ∧ (duplicate_grpc_request wDb (toGrpc wReqB)).1.sort_priority
        = F.add (toGrpc wReqB).sort_priority (F.fin 1000) := by
  refine ⟨?_, ?_, ?_, ?_⟩
  · exact (C1_duplicate_midpoint.1 wDb wReqA 0 (by decide)).1 (by decide)
  · exact (C1_duplicate_midpoint.1 wDb wReqB 1 (by decide)).2 (by decide)
  · exact (C1_duplicate_midpoint.2 wDb (toGrpc wReqA) 0 (by decide)).1 (by decide)
  · exact (C1_duplicate_midpoint.2 wDb (toGrpc wReqB) 1 (by decide)).2 (by decide)

/-- C5: duplication writes exactly one new record — the returned copy is
appended to the request table — and leaves every existing record of every
table unchanged (HTTP and RPC). -/
theorem C5_duplicate_frame (db : Db) (r : HttpRequest) (g : GrpcRequest) :
    ((duplicate_http_request db r).2.httpRequests
        = db.httpRequests ++ [(duplicate_http_request db r).1]
      ∧ (duplicate_http_request db r).2.grpcRequests = db.grpcRequests
      ∧ (duplicate_http_request db r).2.folders = db.folders
      ∧ (duplicate_http_request db r).2.workspaces = db.workspaces
      ∧ (duplicate_http_request db r).2.httpResponses = db.httpResponses
      ∧ (duplicate_http_request db r).2.grpcConnections = db.grpcConnections)
    ∧ ((duplicate_grpc_request db g).2.grpcRequests
        = db.grpcRequests ++ [(duplicate_grpc_request db g).1]
      ∧ (duplicate_grpc_request db g).2.httpRequests = db.httpRequests
      ∧ (duplicate_grpc_request db g).2.folders = db.folders
      ∧ (duplicate_grpc_request db g).2.workspaces = db.workspaces
      ∧ (duplicate_grpc_request db g).2.httpResponses = db.httpResponses
      ∧ (duplicate_grpc_request db g).2.grpcConnections = db.grpcConnections) := by
  constructor
  · simp [duplicate_http_request, upsertHttp]
  · simp [duplicate_grpc_request, upsertGrpc]

/-- C6: in an acyclic folder tree (witnessed by a rank function decreasing
from parent to child) and with fuel exceeding the start folder's rank, the
recursive listing contains exactly the requests transitively contained in
the folder; the result is, per immediate child folder, that child's full
recursive result, followed by the folder's direct requests appended last. -/
theorem C6_recursive_listing (db : Db) (rk : String → Nat)
    (hac : ∀ f ∈ db.folders, (f.folder_id).all (fun pid => decide (rk f.id < rk pid)) = true)
    (fid : String) (fuel : Nat) (hfuel : rk fid < fuel) :
    (∀ r, r ∈ list_http_requests_for_folder_recursive db fuel fid ↔ InFolderTree db fid r)
    ∧ list_http_requests_for_folder_recursive db fuel fid
        = ((childFolders db fid).map
            (fun f => list_http_requests_for_folder_recursive db (fuel - 1) f.id)).flatten
          ++ requestsInFolder db fid
    ∧ ∀ f ∈ childFolders db fid, ∀ r,
        (r ∈ list_http_requests_for_folder_recursive db (fuel - 1) f.id
          ↔ InFolderTree db f.id r) := by
  obtain ⟨n, rfl⟩ : ∃ n, fuel = n + 1 := ⟨fuel - 1, by omega⟩
  refine ⟨fun r => ⟨listRec_sound db _ fid r,
      fun h => listRec_complete db rk hac fid r h _ hfuel⟩, ?_, ?_⟩
  · simp only [list_http_requests_for_folder_recursive, Nat.add_sub_cancel]
  · intro f hf r
    rw [mem_childFolders] at hf
    have hrank : rk f.id < rk fid := by
      have h2 := hac f hf.1
      rw [hf.2] at h2
      simpa [Option.all] using h2
    exact ⟨listRec_sound db _ f.id r,
      fun h => listRec_complete db rk hac f.id r h _ (by simpa using Nat.lt_of_lt_of_le hrank (by omega))⟩

/-- Witness for C6 on the concrete tree: folder f contains subfolder g and
request r1 directly; g contains r2. -/
theorem C6_recursive_listing_witness :
    (∀ r, r ∈ list_http_requests_for_folder_recursive dbTree 2 "f" ↔ InFolderTree dbTree "f" r)
    ∧ list_http_requests_for_folder_recursive dbTree 2 "f"
        = ((childFolders dbTree "f").map
            (fun f => list_http_requests_for_folder_recursive dbTree (2 - 1) f.id)).flatten
          ++ requestsInFolder dbTree "f"
    ∧ ∀ f ∈ childFolders dbTree "f", ∀ r,
        (r ∈ list_http_requests_for_folder_recursive dbTree (2 - 1) f.id
          ↔ InFolderTree dbTree f.id r) :=
  C6_recursive_listing dbTree rankTree (by decide) "f" 2 (by decide)

/-- C7: deleting a request removes its dependent child records first and
the request record second: after a successful delete the child lookup is
empty and `get` returns `NotFound`; and whenever the child deletion fails,
the whole operation fails with that error and the request record is never
deleted (HTTP and RPC). -/
theorem C7_delete_cascade :
    (∀ (db : Db) (m res : HttpRequest) (db2 : Db),
      delete_http_request db m = .ok (res, db2) →
      list_http_responses_for_request db2 m.id = []
      ∧ get_http_request db2 m.id = .error .notFound)
    ∧ (∀ (delC : String → Db → Except DbError Db) (db : Db) (m : HttpRequest) (e : DbError),
      delC m.id db = .error e → delete_http_requestP delC db m = .error e)
    ∧ (∀ (db : Db) (m res : GrpcRequest) (db2 : Db),
      delete_grpc_request db m = .ok (res, db2) →
      list_grpc_connections_for_request db2 m.id = []
      ∧ get_grpc_request db2 m.id = .error .notFound)
    ∧ (∀ (delC : String → Db → Except DbError Db) (db : Db) (m : GrpcRequest) (e : DbError),
      delC m.id db = .error e → delete_grpc_requestP delC db m = .error e) := by
  refine ⟨?_, ?_, ?_, ?_⟩
  · intro db m res db2 h
    replace h : deleteHttpRecord (delete_all_http_responses_for_request db m.id) m
        = .ok (res, db2) := h
    rw [deleteHttpRecord] at h
    split at h
    · simp only [Except.ok.injEq, Prod.mk.injEq] at h
      obtain ⟨hres, hdb⟩ := h
      subst hdb
      constructor
      · simp [list_http_responses_for_request, delete_all_http_responses_for_request,
          filter_not_filter]
      · simp only [get_http_request]
        rw [find?_filter_not (fun r => r.id == m.id)
          (delete_all_http_responses_for_request db m.id).httpRequests]
    · cases h
  · intro delC db m e h
    simp only [delete_http_requestP]
    rw [h]
    rfl
  · intro db m res db2 h
    replace h : deleteGrpcRecord (delete_all_grpc_connections_for_request db m.id) m
        = .ok (res, db2) := h
    rw [deleteGrpcRecord] at h
    split at h
    · simp only [Except.ok.injEq, Prod.mk.injEq] at h
      obtain ⟨hres, hdb⟩ := h
      subst hdb
      constructor
      · simp [list_grpc_connections_for_request, delete_all_grpc_connections_for_request,
          filter_not_filter]
      · simp only [get_grpc_request]
        rw [find?_filter_not (fun r => r.id == m.id)
          (delete_all_grpc_connections_for_request db m.id).grpcRequests]
    · cases h
  · intro delC db m e h
    simp only [delete_grpc_requestP]
    rw [h]
    rfl

/-- Witness for C7: deleting a concrete request with one dependent child of
each kind, plus the failing-children short-circuit. -/
theorem C7_delete_cascade_witness :
    (list_http_responses_for_request dbDelAfterHttp reqDel.id = []
      ∧ get_http_request dbDelAfterHttp reqDel.id = .error .notFound)
    ∧ delete_http_requestP exDelChildrenFail dbDel reqDel = .error .ioFailure
    ∧ (list_grpc_connections_for_request dbDelAfterGrpc greqDel.id = []
      ∧ get_grpc_request dbDelAfterGrpc greqDel.id = .error .notFound)
    ∧ delete_grpc_requestP exDelChildrenFail dbDel greqDel = .error .ioFailure :=
  ⟨C7_delete_cascade.1 dbDel reqDel reqDel dbDelAfterHttp rfl,
   C7_delete_cascade.2.1 exDelChildrenFail dbDel reqDel .ioFailure rfl,
   C7_delete_cascade.2.2.1 dbDel greqDel greqDel dbDelAfterGrpc rfl,
   C7_delete_cascade.2.2.2 exDelChildrenFail dbDel greqDel .ioFailure rfl⟩

/-- C8: the duplication priority computation is total: the sibling sort's
comparator maps incomparable (NaN) priorities to `Equal` and never errors,
and `duplicate_request` either succeeds or fails with exactly an error
propagated from the repository listing or write — for any priorities,
including NaN (HTTP and RPC). -/
theorem C8_duplicate_total :
    (∀ a b : HttpRequest, a.sort_priority.pcmp b.sort_priority = none →
      cmpHttpPriority a b = Ordering.eq)
    ∧ (∀ a b : GrpcRequest, a.sort_priority.pcmp b.sort_priority = none →
      cmpGrpcPriority a b = Ordering.eq)
    ∧ (∀ (l : String → Except DbError (List HttpRequest))
        (u : HttpRequest → Except DbError HttpRequest) (r : HttpRequest),
      (∃ out, duplicate_http_requestE l u r = .ok out)
      ∨ (∃ e, duplicate_http_requestE l u r = .error e
          ∧ (l r.workspace_id = .error e
            ∨ ∃ reqs, l r.workspace_id = .ok reqs
                ∧ u { r with id := "", sort_priority := nextPriorityHttp reqs r }
                    = .error e)))
    ∧ (∀ (l : String → Except DbError (List GrpcRequest))
        (u : GrpcRequest → Except DbError GrpcRequest) (g : GrpcRequest),
      (∃ out, duplicate_grpc_requestE l u g = .ok out)
      ∨ (∃ e, duplicate_grpc_requestE l u g = .error e
          ∧ (l g.workspace_id = .error e
            ∨ ∃ reqs, l g.workspace_id = .ok reqs
                ∧ u { g with id := "", sort_priority := nextPriorityGrpc reqs g }
                    = .error e))) := by
  refine ⟨?_, ?_, ?_, ?_⟩
  · intro a b h
    simp [cmpHttpPriority, h]
  · intro a b h
    simp [cmpGrpcPriority, h]
  · intro l u r
    cases hl : l r.workspace_id with
    | error e =>
      right
      refine ⟨e, ?_, Or.inl rfl⟩
      simp only [duplicate_http_requestE]
      rw [hl]
      rfl
    | ok reqs =>
      cases hu : u { r with id := "", sort_priority := nextPriorityHttp reqs r } with
      | error e =>
        right
        refine ⟨e, ?_, Or.inr ⟨reqs, rfl, hu⟩⟩
        simp only [duplicate_http_requestE]
        rw [hl]
        exact hu
      | ok out =>
        left
        refine ⟨out, ?_⟩
        simp only [duplicate_http_requestE]
        rw [hl]
        exact hu
  · intro l u g
    cases hl : l g.workspace_id with
    | error e =>
      right
      refine ⟨e, ?_, Or.inl rfl⟩
      simp only [duplicate_grpc_requestE]
      rw [hl]
      rfl
    | ok reqs =>
      cases hu : u { g with id := "", sort_priority := nextPriorityGrpc reqs g } with
      | error e =>
        right
        refine ⟨e, ?_, Or.inr ⟨reqs, rfl, hu⟩⟩
        simp only [duplicate_grpc_requestE]
        rw [hl]
        exact hu
      | ok out =>
        left
        refine ⟨out, ?_⟩
        simp only [duplicate_grpc_requestE]
        rw [hl]
        exact hu

/-- Witness for C8 at NaN-priority requests: the comparator yields `Equal`
and duplication with all-NaN siblings resolves the disjunction. -/
theorem C8_duplicate_total_witness :
    cmpHttpPriority reqNaN1 reqNaN2 = Ordering.eq
    ∧ cmpGrpcPriority (toGrpc reqNaN1) (toGrpc reqNaN2) = Ordering.eq
    ∧ ((∃ out, duplicate_http_requestE exListNaN exUpsertOk reqNaN1 = .ok out)
      ∨ (∃ e, duplicate_http_requestE exListNaN exUpsertOk reqNaN1 = .error e
          ∧ (exListNaN reqNaN1.workspace_id = .error e
            ∨ ∃ reqs, exListNaN reqNaN1.workspace_id = .ok reqs
                ∧ exUpsertOk { reqNaN1 with
                    id := "", sort_priority := nextPriorityHttp reqs reqNaN1 } = .error e)))
    ∧ ((∃ out, duplicate_grpc_requestE exListNaNG exUpsertOkG (toGrpc reqNaN1) = .ok out)
      ∨ (∃ e, duplicate_grpc_requestE exListNaNG exUpsertOkG (toGrpc reqNaN1) = .error e
          ∧ (exListNaNG (toGrpc reqNaN1).workspace_id = .error e
            ∨ ∃ reqs, exListNaNG (toGrpc reqNaN1).workspace_id = .ok reqs
                ∧ exUpsertOkG { (toGrpc reqNaN1) with
                    id := "", sort_priority := nextPriorityGrpc reqs (toGrpc reqNaN1) }
                  = .error e))) :=
  ⟨C8_duplicate_total.1 reqNaN1 reqNaN2 (by decide),
   C8_duplicate_total.2.1 (toGrpc reqNaN1) (toGrpc reqNaN2) (by decide),
   C8_duplicate_total.2.2.1 exListNaN exUpsertOk reqNaN1,
   C8_duplicate_total.2.2.2 exListNaNG exUpsertOkG (toGrpc reqNaN1)⟩

/-- C10: duplicating a request whose id is the empty not-yet-persisted
sentinel, over a store in which no persisted request carries an empty id,
always takes the not-found fallback branch: the copy's `sort_priority` is
`source.sort_priority + 0.001`, whatever siblings exist (HTTP and RPC). -/
theorem C10_empty_id_fallback :
    (∀ (db : Db) (r : HttpRequest), r.id = "" →
      (∀ s ∈ db.httpRequests, s.id ≠ "") →
      (duplicate_http_request db r).1.sort_priority
        = F.add r.sort_priority (F.fin (1 / 1000)))
    ∧ (∀ (db : Db) (g : GrpcRequest), g.id = "" →
      (∀ s ∈ db.grpcRequests, s.id ≠ "") →
      (duplicate_grpc_request db g).1.sort_priority
        = F.add g.sort_priority (F.fin (1 / 1000))) := by
  constructor
  · intro db r hid hall
    have hpos : position (fun s => s.id == r.id)
        (sortedSiblingsHttp (list_http_requests db r.workspace_id) r) = none := by
      rw [position_eq_none]
      intro s hs
      rw [sortedSiblingsHttp, mem_sortByCmp] at hs
      have hs2 : s ∈ db.httpRequests := by
        have h3 := (List.mem_filter.mp hs).1
        rw [list_http_requests] at h3
        exact (List.mem_filter.mp h3).1
      have hne := hall s hs2
      rw [hid]
      simp [hne]
    rw [dup_http_priority db r]
    simp only [nextPriorityHttp]
    rw [hpos]
  · intro db g hid hall
    have hpos : position (fun s => s.id == g.id)
        (sortedSiblingsGrpc (list_grpc_requests db g.workspace_id) g) = none := by
      rw [position_eq_none]
      intro s hs
      rw [sortedSiblingsGrpc, mem_sortByCmp] at hs
      have hs2 : s ∈ db.grpcRequests := by
        have h3 := (List.mem_filter.mp hs).1
        rw [list_grpc_requests] at h3
        exact (List.mem_filter.mp h3).1
      have hne := hall s hs2
      rw [hid]
      simp [hne]
    rw [dup_grpc_priority db g]
    simp only [nextPriorityGrpc]
    rw [hpos]

/-- Witness for C10: empty-id source over the two-request store gives
priority 2 + 0.001 even though siblings exist. -/
theorem C10_empty_id_fallback_witness :
    (duplicate_http_request wDb wReqEmptyId).1.sort_priority
      = F.add wReqEmptyId.sort_priority (F.fin (1 / 1000))
    ∧ (duplicate_grpc_request wDb (toGrpc wReqEmptyId)).1.sort_priority
      = F.add (toGrpc wReqEmptyId).sort_priority (F.fin (1 / 1000)) :=
  ⟨C10_empty_id_fallback.1 wDb wReqEmptyId rfl (by decide),
   C10_empty_id_fallback.2 wDb (toGrpc wReqEmptyId) rfl (by decide)⟩

/-- C9: the two per-kind component instances implement the same algorithm:
over a store whose RPC table is the field-for-field image of the HTTP
table, duplicating corresponding requests computes the same new
`sort_priority`, and the per-kind auth and header/metadata resolvers
return equal results on corresponding requests, for every collaborator
choice. -/
theorem C9_kinds_equivalent (db : Db) (hdb : db.grpcRequests = db.httpRequests.map toGrpc)
    (r : HttpRequest) :
    (duplicate_grpc_request db (toGrpc r)).1.sort_priority
      = (duplicate_http_request db r).1.sort_priority
    ∧ (∀ gf gw raf raw,
        resolve_auth_for_grpc_request gf gw raf raw (toGrpc r)
          = resolve_auth_for_http_request gf gw raf raw r)
    ∧ (∀ gf gw rhf rhw,
        resolve_metadata_for_grpc_request gf gw rhf rhw (toGrpc r)
          = resolve_headers_for_http_request gf gw rhf rhw r) := by
  refine ⟨?_, ?_, ?_⟩
  · have hw : (toGrpc r).workspace_id = r.workspace_id := rfl
    rw [dup_grpc_priority db (toGrpc r), hw, list_grpc_map db hdb, nextPriority_map,
      dup_http_priority db r]
  · intro gf gw raf raw
    obtain ⟨rid, rwid, rfid, rsp, rat, rauth, rhdrs⟩ := r
    cases rat <;> cases rfid <;> rfl
  · intro gf gw rhf rhw
    obtain ⟨rid, rwid, rfid, rsp, rat, rauth, rhdrs⟩ := r
    cases rfid <;> rfl

/-- Witness for C9 over the concrete mirrored store and request pair. -/
theorem C9_kinds_equivalent_witness :
    (duplicate_grpc_request wDb (toGrpc wReqA)).1.sort_priority
      = (duplicate_http_request wDb wReqA).1.sort_priority
    ∧ resolve_auth_for_grpc_request exGetFolder exGetWorkspace exAuthFolder exAuthWorkspace
        (toGrpc wReqA)
      = resolve_auth_for_http_request exGetFolder exGetWorkspace exAuthFolder exAuthWorkspace
        wReqA
    ∧ resolve_metadata_for_grpc_request exGetFolder exGetWorkspace exHeadersFolder
        exHeadersWorkspace (toGrpc wReqA)
      = resolve_headers_for_http_request exGetFolder exGetWorkspace exHeadersFolder
        exHeadersWorkspace wReqA :=
  ⟨(C9_kinds_equivalent wDb rfl wReqA).1,
   (C9_kinds_equivalent wDb rfl wReqA).2.1 exGetFolder exGetWorkspace exAuthFolder
     exAuthWorkspace,
   (C9_kinds_equivalent wDb rfl wReqA).2.2 exGetFolder exGetWorkspace exHeadersFolder
     exHeadersWorkspace⟩
